import Mathlib

/-!
Verification of the live automation-session client of the Web-Automation-Agent
repository. The definitions below are a shallow embedding of the relevant
JavaScript source:

- the zustand store in `src/unnamed/part_001` (fields `isAutomating`,
  `automationStatus`, `automationSteps` and their setters);
- the WebSocket message handler `ws.onmessage` and the connection management
  (`connectWebSocket`, `ws.onclose`, `ws.onerror`, the mount effect cleanup)
  in `src/frontend/src/App.jsx`;
- the optimistic trigger inside `handleSend` in `src/frontend/src/App.jsx`
  (lines 216-222);
- the visible-history projection `steps.slice(-3)` of `LiveStepsIndicator`
  (second component of `src/frontend/src/components/ModeSelector.jsx`'s file
  group, `src/frontend/src/components/LiveStepsIndicator.jsx`).

Modelling conventions: JavaScript fields that may be `undefined` become
`Option`; JavaScript string truthiness (`if (data.screenshot)` — absent or
empty string is falsy) is modelled by `truthyStr`; `x || 'd'` on a possibly
absent string is `jsOrStr`. Timers (`setTimeout`) are modelled explicitly as
pending fire times, fired in time order before later events are processed.

A crucial point of the source, modelled by the `captured` parameter of
`onMessage`: in App.jsx the mount effect (line 171, dependency list `[]`,
comment at line 190) runs `connectWebSocket` exactly once, so the installed
`ws.onmessage` closure reads the `automationStatus` VALUE destructured from
the store during the first render — `null` — forever; zustand setters, in
contrast, are stable and act on the live store. Hence `onMessage` takes the
captured status snapshot (at mount: `none`) separately from the current state.
-/

namespace WebAutomation

/-- The record that `setAutomationStatus` stores: `{ status, message, action,
step, maxSteps }`, every field possibly `undefined` in the source. -/
structure AutomationStatus where
  status : Option String
  message : Option String
  action : Option String
  step : Option Nat
  maxSteps : Option Nat
deriving DecidableEq

/-- One entry of `automationSteps`, as built in the `screenshot_update` case of
`ws.onmessage`: `{ action, message, screenshot }`. -/
structure StepRecord where
  action : String
  message : String
  screenshot : Option String
deriving DecidableEq

/-- The client state relevant to the session protocol: the three automation
fields of the zustand store (`src/unnamed/part_001`), the store's
`currentUrl`, and App.jsx's component state `browserUrl`/`browserScreenshot`. -/
structure ClientState where
  isAutomating : Bool
  automationStatus : Option AutomationStatus
  automationSteps : List StepRecord
  currentUrl : Option String
  browserUrl : String
  browserScreenshot : Option String
deriving DecidableEq

/-- Initial state: store defaults (`isAutomating: false`, `automationStatus:
null`, `automationSteps: []`, `currentUrl: null`) and App.jsx `useState`
defaults (`browserUrl = 'about:blank'`, `browserScreenshot = null`). -/
def initialClient : ClientState :=
  { isAutomating := false
    automationStatus := none
    automationSteps := []
    currentUrl := none
    browserUrl := "about:blank"
    browserScreenshot := none }

/-- Store setter `setIsAutomating` (src/unnamed/part_001). -/
def setIsAutomating (b : Bool) (s : ClientState) : ClientState :=
  { s with isAutomating := b }

/-- Store setter `setAutomationStatus` (src/unnamed/part_001). -/
def setAutomationStatus (st : Option AutomationStatus) (s : ClientState) : ClientState :=
  { s with automationStatus := st }

/-- Store action `addAutomationStep` (src/unnamed/part_001 lines 38-41):
`automationSteps: [...state.automationSteps, step]` — a plain append with no
length cap. -/
def addAutomationStep (r : StepRecord) (s : ClientState) : ClientState :=
  { s with automationSteps := s.automationSteps ++ [r] }

/-- Store action `clearAutomationSteps` (src/unnamed/part_001). -/
def clearAutomationSteps (s : ClientState) : ClientState :=
  { s with automationSteps := [] }

/-- Store action `resetAutomationState` (src/unnamed/part_001 lines 46-51):
clears the three automation fields together. -/
def resetAutomationState (s : ClientState) : ClientState :=
  { s with isAutomating := false, automationStatus := none, automationSteps := [] }

/-- Store setter `setUrl` (src/unnamed/part_001). -/
def setUrl (u : Option String) (s : ClientState) : ClientState :=
  { s with currentUrl := u }

/-- JavaScript truthiness of a possibly absent string: `undefined` and the
empty string are falsy, every other string is truthy. -/
def truthyStr : Option String → Bool
  | none => false
  | some s => !(s == "")

/-- JavaScript `x || d` for a possibly absent string `x`: yields `d` when `x`
is absent or empty, otherwise `x`. -/
def jsOrStr : Option String → String → String
  | none, d => d
  | some s, d => if s == "" then d else s

/-- The closed set of inbound frames discriminated by `data.type` in
`ws.onmessage` (App.jsx lines 77-142). Fields are `Option` because the handler
never validates presence; an absent JSON field reads as `undefined`. -/
inductive Frame where
  | automationStart (status message : Option String)
  | automationStatus (status message action : Option String) (step maxSteps : Option Nat)
  | screenshotUpdate (screenshot url : Option String)
  | automationComplete
  | automationError (error : Option String)
  | pong
  | unknown
deriving DecidableEq

/-- Whether a frame is an `automation_start` frame. -/
def isStartFrame : Frame → Bool
  | .automationStart _ _ => true
  | _ => false

/-- The `ws.onmessage` handler of App.jsx (lines 73-146), as a function from
the captured `automationStatus` snapshot (see the file comment), the inbound
frame, and the current client state to the new client state plus the list of
`setTimeout` delays (ms) it schedules for `resetAutomationState`.

Faithful points: `automation_start` sets the flag, clears the steps and
replaces the status (lines 79-84); `automation_status` replaces the status
(lines 88-94); `screenshot_update` appends a step only under `if
(data.screenshot)` using `automationStatus?.action || 'update'` and
`automationStatus?.message || 'Updated'` from the CAPTURED snapshot, and under
`if (data.url)` updates only the url fields (lines 97-111); `complete` and
`error` replace the status and schedule a reset after 2000 ms resp. 3000 ms
(lines 113-134); `pong` and unknown types do nothing. No case inspects or
validates required fields, and no case other than `automation_start` touches
`isAutomating`. -/
def onMessage (captured : Option AutomationStatus) :
    Frame → ClientState → ClientState × List Nat
  | .automationStart st msg, s =>
      (setAutomationStatus (some ⟨st, msg, none, none, none⟩)
        (clearAutomationSteps (setIsAutomating true s)), [])
  | .automationStatus st msg act stp mx, s =>
      (setAutomationStatus (some ⟨st, msg, act, stp, mx⟩) s, [])
  | .screenshotUpdate shot url, s =>
      let s1 := match shot with
        | some sc =>
            if sc == "" then s
            else
              addAutomationStep
                ⟨jsOrStr (Option.bind captured AutomationStatus.action) "update",
                 jsOrStr (Option.bind captured AutomationStatus.message) "Updated",
                 some sc⟩
                { s with browserScreenshot := some ("data:image/png;base64," ++ sc) }
        | none => s
      let s2 := match url with
        | some u => if u == "" then s1 else setUrl (some u) { s1 with browserUrl := u }
        | none => s1
      (s2, [])
  | .automationComplete, s =>
      (setAutomationStatus
        (some ⟨some "Complete", some "Task finished", some "done", none, none⟩) s, [2000])
  | .automationError e, s =>
      (setAutomationStatus (some ⟨some "Error", e, some "error", none, none⟩) s, [3000])
  | .pong, s => (s, [])
  | .unknown, s => (s, [])

/-- Process a list of frames in order, ignoring scheduled timers (used for
scenarios that stay clear of `complete`/`error` timing). -/
def runFrames (captured : Option AutomationStatus) (evs : List Frame)
    (s : ClientState) : ClientState :=
  evs.foldl (fun st f => (onMessage captured f st).fst) s

/-- The visible history projection of LiveStepsIndicator: `steps.slice(-3)`,
the last three records (or all of them when fewer than three exist). -/
def visibleSteps (s : ClientState) : List StepRecord :=
  s.automationSteps.drop (s.automationSteps.length - 3)

/-- Does the needle occur starting at the head of the haystack. -/
def charsStartWith : List Char → List Char → Bool
  | [], _ => true
  | _ :: _, [] => false
  | c :: cs, d :: ds => c == d && charsStartWith cs ds

/-- Does the needle occur anywhere in the haystack. -/
def charsContain (needle : List Char) : List Char → Bool
  | [] => needle.isEmpty
  | d :: ds => charsStartWith needle (d :: ds) || charsContain needle ds

/-- JavaScript `hay.includes(needle)` on strings. -/
def jsIncludes (hay needle : String) : Bool :=
  charsContain needle.data hay.data

/-- JavaScript `s.toLowerCase()` (ASCII range, which covers the keyword
comparisons of `handleSend`). -/
def jsToLower (s : String) : String :=
  String.mk (s.data.map Char.toLower)

/-- The keyword test of `handleSend` (App.jsx line 216):
`input.toLowerCase().includes('navigate') || input.toLowerCase().includes('go
to') || input.toLowerCase().includes('open')`. -/
def automationKeyword (input : String) : Bool :=
  jsIncludes (jsToLower input) "navigate" || jsIncludes (jsToLower input) "go to" ||
    jsIncludes (jsToLower input) "open"

/-- The body of the optimistic branch of `handleSend` (App.jsx lines 217-221):
`setIsAutomating(true)` followed by `setAutomationStatus({ status:
'Working...', message: 'Preparing to assist you' })`. -/
def optimisticTrigger (s : ClientState) : ClientState :=
  setAutomationStatus
    (some ⟨some "Working...", some "Preparing to assist you", none, none, none⟩)
    (setIsAutomating true s)

/-- The optimistic part of `handleSend` (App.jsx lines 216-222): the trigger
fires when the mode is `automate` or the lowercased input contains one of the
keywords; otherwise the state is untouched. (The guard at line 201 — empty
input or a request already in flight — returns before this point; theorems
about a submitted message assume the submission went through.) -/
def handleSendOptimistic (mode input : String) (s : ClientState) : ClientState :=
  if mode == "automate" || automationKeyword input then optimisticTrigger s else s

/-- Session state with explicit pending timers: the client state plus the
absolute fire times of every scheduled `resetAutomationState` timeout. -/
structure SessionState where
  client : ClientState
  resets : List Nat
deriving DecidableEq

/-- Fire every pending reset timer that is due at time `t`. All these
callbacks are the same constant-effect `resetAutomationState`, so firing all
due ones equals firing one; the due timers are removed either way. -/
def fireDue (t : Nat) (st : SessionState) : SessionState :=
  if st.resets.any (fun r => r ≤ t) then
    ⟨resetAutomationState st.client, st.resets.filter (fun r => t < r)⟩
  else st

/-- Process one timestamped frame: timers due by its arrival time fire first,
then the frame is handled and any delays it schedules become absolute fire
times. -/
def stepTimed (captured : Option AutomationStatus) (st : SessionState)
    (ev : Nat × Frame) : SessionState :=
  let st1 := fireDue ev.fst st
  let r := onMessage captured ev.snd st1.client
  ⟨r.fst, st1.resets ++ r.snd.map (fun d => ev.fst + d)⟩

/-- Run a time-ordered trace of frames from the initial state, then fire every
timer due by `tEnd`, yielding the state observed at `tEnd`. -/
def runTimed (captured : Option AutomationStatus) (evs : List (Nat × Frame))
    (tEnd : Nat) : SessionState :=
  fireDue tEnd (evs.foldl (stepTimed captured) ⟨initialClient, []⟩)

/-- Connection-manager state, from App.jsx: `wsOpen` — `wsRef.current` holds
an OPEN socket; `connecting` — `isConnectingRef.current`; `reconnectRef` —
`reconnectTimeoutRef.current` is non-null; `reconnectTimers` — the number of
live reconnect `setTimeout`s (tracked separately from the ref so that "at most
one scheduled reconnect" is a proved property, not a modelling artifact);
`pingActive` — the 30 s keep-alive interval is running. -/
structure ConnState where
  wsOpen : Bool
  connecting : Bool
  reconnectRef : Bool
  reconnectTimers : Nat
  pingActive : Bool
deriving DecidableEq

/-- The events driving the connection manager: an explicit `connectWebSocket()`
call, the socket open/close/error callbacks, the reconnect timer firing, and
the mount-effect cleanup (App.jsx lines 181-189), which is the shutdown path.
Shutdown calls `ws.close()`; the resulting close callback is delivered later
as a separate `closed` event in the trace, exactly as the browser delivers it
to the still-installed `onclose` handler. -/
inductive ConnEvent where
  | connectCall
  | opened
  | closed
  | errored
  | reconnectFire
  | shutdown
deriving DecidableEq

/-- `connectWebSocket` (App.jsx lines 45-59): no-op while an attempt is in
flight or the socket is open, otherwise mark an attempt in flight. -/
def connectWebSocket (s : ConnState) : ConnState :=
  if s.connecting || s.wsOpen then s else { s with connecting := true }

/-- One step of the connection manager. `opened` is `ws.onopen` (lines 61-71):
socket stored, connecting flag dropped, any pending reconnect cancelled.
`closed` is `ws.onclose` (lines 148-160): socket dropped and, only when no
reconnect is already scheduled, exactly one reconnect timer scheduled.
`errored` is `ws.onerror` (lines 162-165): clears the connecting flag only —
it never schedules a retry. `reconnectFire` is the body of the scheduled
timeout (lines 155-158): null the ref, then call `connectWebSocket()`; only a
live timer can fire, so a fire event while no timer is live is a no-op of the
trace. `shutdown` is the cleanup (lines 181-189): stop the ping interval and
`clearTimeout` the ref's timer — WITHOUT nulling `reconnectTimeoutRef.current`
(the source never assigns it in the cleanup), so the ref keeps its possibly
stale id while the live-timer count drops; `clearTimeout` on an already dead
id changes nothing, which Nat subtraction models exactly. The cleanup contains
no guard that would stop a LATER `closed` event from scheduling a fresh
reconnect when the ref is null (as it is whenever `onopen` nulled it). -/
def stepConn (s : ConnState) : ConnEvent → ConnState
  | .connectCall => connectWebSocket s
  | .opened =>
      { s with wsOpen := true, connecting := false, reconnectRef := false,
               reconnectTimers := if s.reconnectRef then s.reconnectTimers - 1
                                  else s.reconnectTimers }
  | .closed =>
      let s1 := { s with wsOpen := false, connecting := false }
      if s1.reconnectRef then s1
      else { s1 with reconnectRef := true, reconnectTimers := s1.reconnectTimers + 1 }
  | .errored => { s with connecting := false }
  | .reconnectFire =>
      if s.reconnectTimers = 0 then s
      else
        connectWebSocket { s with reconnectRef := false,
                                  reconnectTimers := s.reconnectTimers - 1 }
  | .shutdown =>
      { s with pingActive := false,
               reconnectTimers := if s.reconnectRef then s.reconnectTimers - 1
                                  else s.reconnectTimers }

/-- Run the connection manager over a trace of events. -/
def runConn (evs : List ConnEvent) (s : ConnState) : ConnState :=
  evs.foldl stepConn s

/-- State at mount: nothing open or in flight, no reconnect scheduled, the
keep-alive interval started by the mount effect. -/
def initConn : ConnState :=
  { wsOpen := false, connecting := false, reconnectRef := false,
    reconnectTimers := 0, pingActive := true }

/-- The reconnect-bookkeeping invariant: at most one live reconnect timer
exists, and none at all while `reconnectTimeoutRef` is null (a non-null ref
may be a stale id of an already cancelled timer, since the cleanup never nulls
it). -/
def reconnectInv (s : ConnState) : Prop :=
  s.reconnectTimers ≤ if s.reconnectRef then 1 else 0

lemma stepConn_reconnectInv (s : ConnState) (e : ConnEvent) (h : reconnectInv s) :
    reconnectInv (stepConn s e) := by
  cases e <;>
    simp only [reconnectInv, stepConn, connectWebSocket] at h ⊢ <;>
    split_ifs at h ⊢ <;> simp_all

lemma runConn_reconnectInv :
    ∀ (evs : List ConnEvent) (s : ConnState), reconnectInv s → reconnectInv (runConn evs s)
  | [], _, h => h
  | e :: es, s, h => runConn_reconnectInv es (stepConn s e) (stepConn_reconnectInv s e h)

/-- A task start followed by eight frame events, each carrying a fresh image:
the scenario of P3. -/
def c1Trace : List Frame :=
  [Frame.automationStart (some "Working...") (some "Preparing"),
   Frame.screenshotUpdate (some "i1") none, Frame.screenshotUpdate (some "i2") none,
   Frame.screenshotUpdate (some "i3") none, Frame.screenshotUpdate (some "i4") none,
   Frame.screenshotUpdate (some "i5") none, Frame.screenshotUpdate (some "i6") none,
   Frame.screenshotUpdate (some "i7") none, Frame.screenshotUpdate (some "i8") none]

/-- Claim C1: the spec says the internal step-history buffer is capped at 5
with FIFO eviction; `addAutomationStep` (src/unnamed/part_001 lines 38-41) is
an uncapped append, despite the App.jsx comment at line 100 announcing "limit
to last 5". Evaluating the code at the claim's own scenario: after 8 frame
events with images during an active task the internal buffer holds all 8
records — more than the claimed bound of 5 — while the visible projection is
indeed the 3 most recent records. -/
theorem C1_history_unbounded_eval :
    (runFrames none c1Trace initialClient).automationSteps.length = 8 ∧
    ¬ ((runFrames none c1Trace initialClient).automationSteps.length ≤ 5) ∧
    visibleSteps (runFrames none c1Trace initialClient) =
      [⟨"update", "Updated", some "i6"⟩, ⟨"update", "Updated", some "i7"⟩,
       ⟨"update", "Updated", some "i8"⟩] := by decide

/-- Claim C2, counterexample: a `start` frame missing both of its required
fields (`status`, `message`) does NOT leave the session state unchanged —
processed from the idle initial state it flips `isAutomating` to `true`, so
the claim that malformed frames leave `SessionStatus` unchanged is false. -/
theorem C2_malformed_start_changes_state :
    (onMessage none (Frame.automationStart none none) initialClient).fst.isAutomating = true ∧
    initialClient.isAutomating = false ∧
    ¬ ((onMessage none (Frame.automationStart none none) initialClient).fst
        = initialClient) := by decide

/-- Claim C2, amended: the handler performs no field validation, so a frame
missing a required field is not dropped — its case runs with the missing
fields as absent values and completes normally (processing is a total
function, so no exception escapes and subsequent frames decode as usual), but
the state does change: a `start` frame missing `status` and `message` still
activates the session and clears history with absent headline and detail, and
an `error` frame missing `detail` still installs the Error status with an
absent message and schedules the 3 s reset. -/
theorem C2_amended_missing_fields_processed (c : Option AutomationStatus) (s : ClientState) :
    onMessage c (Frame.automationStart none none) s =
      ({ s with isAutomating := true, automationSteps := [],
                automationStatus := some ⟨none, none, none, none, none⟩ }, []) ∧
    onMessage c (Frame.automationError none) s =
      ({ s with automationStatus := some ⟨some "Error", none, some "error", none, none⟩ },
        [3000]) :=
  ⟨rfl, rfl⟩

/-- Claim C3, counterexample: a `progress` (automation_status) frame received
in the idle initial state is not ignored — it installs a status record while
`isAutomating` stays `false`, producing a reachable state in which the phase
is idle but headline, detail, currentAction and the step counters are all
present, refuting both the ignore-while-idle claim and the claimed
invariant. -/
theorem C3_idle_event_not_ignored :
    ((onMessage none (Frame.automationStatus (some "Working...") (some "Clicking button")
        (some "click") (some 2) (some 5)) initialClient).fst.isAutomating = false) ∧
    ((onMessage none (Frame.automationStatus (some "Working...") (some "Clicking button")
        (some "click") (some 2) (some 5)) initialClient).fst.automationStatus =
      some ⟨some "Working...", some "Clicking button", some "click", some 2, some 5⟩) ∧
    ¬ ((onMessage none (Frame.automationStatus (some "Working...") (some "Clicking button")
        (some "click") (some 2) (some 5)) initialClient).fst = initialClient) := by decide

/-- Claim C3, amended: an inbound event other than `start` received while idle
never makes the session active — no handler case except `automation_start`
writes `isAutomating` — but such events are not ignored: they may still update
the status record, the history buffer and the url fields, so idle does not
imply those fields are absent. -/
theorem C3_amended_idle_flag_preserved (c : Option AutomationStatus) (s : ClientState)
    (f : Frame) (h : isStartFrame f = false) :
    (onMessage c f s).fst.isAutomating = s.isAutomating := by
  cases f with
  | automationStart st msg => simp [isStartFrame] at h
  | screenshotUpdate shot url =>
      cases shot <;> cases url <;> simp only [onMessage] <;> split_ifs <;> rfl
  | _ => rfl

/-- Witness for C3 (amended): the complete frame is not a start frame, and
processing it from the initial state leaves the idle flag where it was. -/
theorem C3_amended_idle_flag_preserved_witness :
    isStartFrame Frame.automationComplete = false ∧
    (onMessage none Frame.automationComplete initialClient).fst.isAutomating =
      initialClient.isAutomating :=
  ⟨rfl, C3_amended_idle_flag_preserved none initialClient Frame.automationComplete rfl⟩

/-- Claim C4, counterexample: the local optimistic trigger transitions the
session from idle into starting WITHOUT clearing the step history. The
starting state is reachable: a screenshot frame received while idle leaves a
record in the buffer (see C3), and firing the trigger from there keeps that
record. -/
theorem C4_optimistic_trigger_keeps_history :
    ((runFrames none [Frame.screenshotUpdate (some "img") none] initialClient).isAutomating
      = false) ∧
    ((handleSendOptimistic "automate" "open the site"
        (runFrames none [Frame.screenshotUpdate (some "img") none] initialClient)).isAutomating
      = true) ∧
    ((handleSendOptimistic "automate" "open the site"
        (runFrames none [Frame.screenshotUpdate (some "img") none] initialClient)).automationSteps
      = [⟨"update", "Updated", some "img"⟩]) := by decide

/-- Claim C4, amended: only the `start` EVENT clears the history buffer when
entering starting; the local optimistic trigger sets the active flag and the
placeholder status but leaves the history buffer exactly as it was. -/
theorem C4_amended_only_start_event_clears :
    (∀ (c : Option AutomationStatus) (st msg : Option String) (s : ClientState),
      (onMessage c (Frame.automationStart st msg) s).fst.automationSteps = []) ∧
    (∀ (mode input : String) (s : ClientState),
      (handleSendOptimistic mode input s).automationSteps = s.automationSteps) := by
  refine ⟨fun c st msg s => rfl, fun mode input s => ?_⟩
  cases h : (mode == "automate" || automationKeyword input) <;>
    simp [handleSendOptimistic, h, optimisticTrigger, setAutomationStatus, setIsAutomating]

/-- Claim C5, counterexample: a `complete` frame at t = 0 schedules a reset at
t = 2000; a new `start` frame at t = 1000 does NOT cancel it (the handler
never stores or clears these timeout ids), so while the new task is active at
t = 1999, at t = 2500 the stale timer has wiped the new task's state back to
the initial idle state — the claimed cancellation does not exist. -/
theorem C5_stale_timer_clears_new_task :
    ((runTimed none [(0, Frame.automationComplete),
        (1000, Frame.automationStart (some "Working...") (some "Preparing"))]
        1999).client.isAutomating = true) ∧
    ((runTimed none [(0, Frame.automationComplete),
        (1000, Frame.automationStart (some "Working...") (some "Preparing"))]
        2500).client = initialClient) := by decide

/-- Claim C5, amended: after a `complete` event the state auto-reverts to the
initial idle state once 2000 ms have elapsed (and is still showing the
Complete status 1999 ms in), after an `error` event once 3000 ms have elapsed;
but a pending auto-revert is NOT cancelled when a new `start` arrives before
the delay elapses — the stale timer still fires and clears the new task's
state. -/
theorem C5_amended_hold_delays_no_cancellation (t : Nat) (c : Option AutomationStatus) :
    ((runTimed c [(t, Frame.automationStart (some "Working...") (some "Preparing")),
        (t + 100, Frame.automationComplete)] (t + 2099)).client.automationStatus =
      some ⟨some "Complete", some "Task finished", some "done", none, none⟩) ∧
    ((runTimed c [(t, Frame.automationStart (some "Working...") (some "Preparing")),
        (t + 100, Frame.automationComplete)] (t + 2100)).client = initialClient) ∧
    ((runTimed c [(t, Frame.automationStart (some "Working...") (some "Preparing")),
        (t + 100, Frame.automationError (some "boom"))] (t + 3099)).client.automationStatus =
      some ⟨some "Error", some "boom", some "error", none, none⟩) ∧
    ((runTimed c [(t, Frame.automationStart (some "Working...") (some "Preparing")),
        (t + 100, Frame.automationError (some "boom"))] (t + 3100)).client = initialClient) ∧
    ((runTimed c [(t, Frame.automationComplete),
        (t + 1000, Frame.automationStart (some "A") (some "B"))] (t + 2500)).client =
      initialClient) := by
  have h1 : ¬ (t + 100 + 2000 ≤ t + 2099) := by omega
  have h2 : t + 100 + 2000 ≤ t + 2100 := by omega
  have h3 : ¬ (t + 100 + 3000 ≤ t + 3099) := by omega
  have h4 : t + 100 + 3000 ≤ t + 3100 := by omega
  have h5 : t + 2000 ≤ t + 2500 := by omega
  have h6 : ¬ (t + 2000 ≤ t + 1000) := by omega
  refine ⟨?_, ?_, ?_, ?_, ?_⟩ <;>
    simp [runTimed, stepTimed, fireDue, onMessage, setAutomationStatus, setIsAutomating,
      clearAutomationSteps, resetAutomationState, initialClient, h1, h2, h3, h4, h5, h6]

/-- Claim C6, counterexample: the cleanup (shutdown) stops the tracked timers
and closes the socket, but the close event then delivered to the still-
installed `onclose` handler finds the ref that `onopen` nulled and schedules a
fresh reconnect timer (the handler has no shutdown guard), and when that timer
fires a new connection attempt starts and can complete — a connection IS
re-established after shutdown. -/
theorem C6_shutdown_triggers_reconnect :
    ((runConn [ConnEvent.connectCall, ConnEvent.opened, ConnEvent.shutdown,
        ConnEvent.closed] initConn).reconnectTimers = 1) ∧
    ((runConn [ConnEvent.connectCall, ConnEvent.opened, ConnEvent.shutdown,
        ConnEvent.closed, ConnEvent.reconnectFire] initConn).connecting = true) ∧
    ((runConn [ConnEvent.connectCall, ConnEvent.opened, ConnEvent.shutdown,
        ConnEvent.closed, ConnEvent.reconnectFire, ConnEvent.opened] initConn).wsOpen
      = true) := by decide

/-- Claim C6, amended: along every trace, shutdown stops the keep-alive
interval and cancels any live reconnect timer — zero scheduled reconnects
remain the instant the cleanup finishes (the ref itself is NOT nulled by the
cleanup and may keep a stale id) — and closes the channel; however the
resulting close event, finding the ref that `onopen` had nulled, schedules a
fresh reconnect which fires after shutdown, so the manager does reconnect and
a connection is re-established after shutdown. -/
theorem C6_amended_shutdown_cancellation_and_reconnect :
    (∀ evs : List ConnEvent,
      (runConn (evs ++ [ConnEvent.shutdown]) initConn).pingActive = false ∧
      (runConn (evs ++ [ConnEvent.shutdown]) initConn).reconnectTimers = 0) ∧
    ((runConn [ConnEvent.connectCall, ConnEvent.opened, ConnEvent.shutdown,
        ConnEvent.closed, ConnEvent.reconnectFire, ConnEvent.opened] initConn).wsOpen
      = true) := by
  refine ⟨fun evs => ?_, by decide⟩
  have h := runConn_reconnectInv evs initConn (by simp [reconnectInv, initConn])
  unfold reconnectInv at h
  have hrun : runConn (evs ++ [ConnEvent.shutdown]) initConn
      = stepConn (runConn evs initConn) ConnEvent.shutdown := by
    simp [runConn, List.foldl_append]
  rw [hrun]
  refine ⟨rfl, ?_⟩
  simp only [stepConn]
  cases hr : (runConn evs initConn).reconnectRef <;> simp [hr] at h ⊢ <;> omega

/-- Claim C7: at most one reconnect timer is scheduled at any instant along
any event trace; a transport-level error by itself changes neither the
scheduled-reconnect count nor the ref (it never schedules a retry); and five
rapid disconnects before any reconnect completes leave exactly one scheduled
reconnect timer. -/
theorem C7_single_reconnect_in_flight :
    (∀ evs : List ConnEvent, (runConn evs initConn).reconnectTimers ≤ 1) ∧
    (∀ s : ConnState, (stepConn s ConnEvent.errored).reconnectTimers = s.reconnectTimers ∧
      (stepConn s ConnEvent.errored).reconnectRef = s.reconnectRef) ∧
    ((runConn [ConnEvent.connectCall, ConnEvent.opened, ConnEvent.closed, ConnEvent.closed,
      ConnEvent.closed, ConnEvent.closed, ConnEvent.closed] initConn).reconnectTimers = 1) := by
  refine ⟨fun evs => ?_, fun s => ⟨rfl, rfl⟩, by decide⟩
  have h := runConn_reconnectInv evs initConn (by simp [reconnectInv, initConn])
  unfold reconnectInv at h
  cases hr : (runConn evs initConn).reconnectRef <;> simp [hr] at h <;> omega

/-- A start, a progress event carrying action "click" and message "Clicking
button", then a frame event with an image: the C8 scenario. -/
def c8Trace : List Frame :=
  [Frame.automationStart (some "Working...") (some "Preparing"),
   Frame.automationStatus (some "Working...") (some "Clicking button") (some "click")
     (some 2) (some 5),
   Frame.screenshotUpdate (some "abc") none]

/-- Claim C8: the spec says a frame event's appended record reuses the most
recently known action/message from the latest progress event. In the source
the `onmessage` handler reads the `automationStatus` VALUE captured when the
mount effect (empty dependency list, App.jsx line 190) installed it — `null` —
so the record always falls back to the constants `update`/`Updated` even
though the live status holds `click`/`Clicking button`. Evaluating the code at
that failing input exhibits the divergence; the remaining parts of the claim
hold: the record is appended only when an image is present, a location payload
updates only the url fields, and a frame event never changes the phase flag. -/
theorem C8_frame_record_uses_mount_capture :
    ((runFrames none c8Trace initialClient).automationStatus =
      some ⟨some "Working...", some "Clicking button", some "click", some 2, some 5⟩) ∧
    ((runFrames none c8Trace initialClient).automationSteps =
      [⟨"update", "Updated", some "abc"⟩]) ∧
    ((runFrames none c8Trace initialClient).isAutomating = true) ∧
    ((runFrames none [Frame.automationStart (some "W") (some "P"),
        Frame.screenshotUpdate none (some "https://example.com")]
        initialClient).automationSteps = []) ∧
    ((runFrames none [Frame.automationStart (some "W") (some "P"),
        Frame.screenshotUpdate none (some "https://example.com")]
        initialClient).currentUrl = some "https://example.com") ∧
    ((runFrames none [Frame.automationStart (some "W") (some "P"),
        Frame.screenshotUpdate none (some "https://example.com")]
        initialClient).isAutomating = true) := by decide

/-- Claim C9: the local optimistic trigger is idempotent — firing it twice in
a row with no intervening event yields exactly the state of firing it once —
and it never moves the session backward to idle: the resulting active flag is
the disjunction of the previous flag with the firing condition, so a true flag
stays true. -/
theorem C9_idempotent_optimistic_trigger :
    (∀ (mode input : String) (s : ClientState),
      handleSendOptimistic mode input (handleSendOptimistic mode input s) =
        handleSendOptimistic mode input s) ∧
    (∀ (mode input : String) (s : ClientState),
      (handleSendOptimistic mode input s).isAutomating =
        (s.isAutomating || (mode == "automate" || automationKeyword input))) := by
  constructor <;> intro mode input s <;>
    cases h : (mode == "automate" || automationKeyword input) <;>
      simp [handleSendOptimistic, h, optimisticTrigger, setAutomationStatus, setIsAutomating]

/-- Claim C10: for every submitted message in ANY mode, if the lowercased
input contains "navigate", "go to" or "open", the optimistic transition fires
before any network confirmation: the session becomes active with headline
"Working..." and detail "Preparing to assist you". -/
theorem C10_keyword_fires_in_any_mode (mode input : String) (s : ClientState)
    (h : automationKeyword input = true) :
    (handleSendOptimistic mode input s).isAutomating = true ∧
    (handleSendOptimistic mode input s).automationStatus =
      some ⟨some "Working...", some "Preparing to assist you", none, none, none⟩ := by
  have hc : (mode == "automate" || automationKeyword input) = true := by simp [h]
  simp [handleSendOptimistic, hc, optimisticTrigger, setAutomationStatus, setIsAutomating]

/-- Witness for C10: the input "please Open the dashboard" contains "open"
after lowercasing, and submitting it in assist mode fires the optimistic
transition. -/
theorem C10_keyword_fires_in_any_mode_witness :
    automationKeyword "please Open the dashboard" = true ∧
    ((handleSendOptimistic "assist" "please Open the dashboard" initialClient).isAutomating
        = true ∧
      (handleSendOptimistic "assist" "please Open the dashboard"
          initialClient).automationStatus =
        some ⟨some "Working...", some "Preparing to assist you", none, none, none⟩) :=
  ⟨by decide,
   C10_keyword_fires_in_any_mode "assist" "please Open the dashboard" initialClient
     (by decide)⟩

end WebAutomation
